import Mathlib

/-!
# Verification of the video-chat client session state machine

Shallow embedding of `src/App.tsx` (a matchmaking / WebRTC signaling client).
The component keeps its state in React refs and `useState` hooks; we model it
as an explicit record `ClientState` and translate every socket handler and
public operation (`start`, `next`, `stop`, …) into a step function
`stepF : Bool → ClientState → Ev → StepRes` that returns the new state, the
list of outbound socket emissions, and whether the handler's async body
rejected (threw).

The `Bool` parameter models whether `navigator.mediaDevices.getUserMedia`
would succeed if called (the environment's media availability); once a stream
is cached in `localStreamRef` (`localStream := true`) it is reused.

To express "no leaked transports" we keep every `RTCPeerConnection` that is no
longer referenced by `pcRef` in a `graveyard` list, recording whether it was
closed and whether its event hooks were nulled before the reference was
dropped.
-/

namespace VideoChatClient

/-- `type Role = "caller" | "callee" | null` — the non-null values. -/
inductive RoleKind
  | caller
  | callee
deriving DecidableEq, Repr

/-- Session descriptions exchanged during negotiation.  `createOffer` always
produces `Sdp.offer`, `createAnswer` always produces `Sdp.answer`; inbound
descriptions relayed from the peer may be anything. -/
inductive Sdp
  | offer
  | answer
  | other (n : Nat)
deriving DecidableEq, Repr

/-- `QueueInfo = { position; etaSec; waitedSec }`. -/
structure QueueInfo where
  position : Nat
  etaSec : Nat
  waitedSec : Nat
deriving DecidableEq, Repr

/-- `ChatMsg = { id; text; ts; mine }`. -/
structure ChatMsg where
  id : String
  text : String
  ts : Nat
  mine : Bool
deriving DecidableEq, Repr

/-- One `RTCPeerConnection` instance.  `hooksAttached` records whether the
`ontrack` / `onicecandidate` / `onconnectionstatechange` observers are set;
`closed` whether `close()` has been called; `localDesc` / `remoteDesc` the
committed session descriptions; `candidates` the remote ICE candidates
successfully applied. -/
structure Transport where
  hooksAttached : Bool
  closed : Bool
  localDesc : Option Sdp
  remoteDesc : Option Sdp
  candidates : List Nat
deriving DecidableEq, Repr

/-- The component state: `status` / `role` / `queueInfo` / `chat` / `draft`
are the `useState` hooks; `localStream` models `localStreamRef.current`
being non-null; `remoteSrcAttached` models `remoteVideoRef.current.srcObject`
being non-null; `pc` models `pcRef.current`; `graveyard` holds every
transport no longer referenced by `pcRef` (for leak accounting — it has no
counterpart in the source, where dropped references are simply garbage). -/
structure ClientState where
  status : String
  role : Option RoleKind
  queueInfo : Option QueueInfo
  chat : List ChatMsg
  draft : String
  localStream : Bool
  remoteSrcAttached : Bool
  pc : Option Transport
  graveyard : List Transport
deriving DecidableEq, Repr

/-- Outbound socket emissions (`socket.emit(...)`). -/
inductive Out
  | find
  | next
  | stop
  | rtcOffer (sdp : Sdp)
  | rtcAnswer (sdp : Sdp)
  | rtcIce (cand : Nat)
  | chatMessage (id : String) (text : String) (ts : Nat)
deriving DecidableEq, Repr

/-- Inputs: the public operations (user intents) and the inbound socket
events handled in the `useEffect` body. -/
inductive Ev
  | start
  | next
  | stop
  | connect
  | welcome
  | reconnected
  | waiting
  | queueTimeout
  | queueStatus (info : QueueInfo)
  | matched (role : Option RoleKind)
  | partnerLeft
  | reset
  | chatMessageIn (id : String) (text : String) (ts : Nat)
  | rtcOffer (sdp : Sdp)
  | rtcAnswer (sdp : Sdp)
  | rtcIce (cand : Nat)
  | sendChat (id : String) (ts : Nat)
  | setDraft (d : String)
deriving DecidableEq, Repr

/-- Result of running one handler: the state afterwards, the outbound
emissions, and whether the handler's async body rejected with an uncaught
exception. -/
structure StepRes where
  state : ClientState
  outs : List Out
  threw : Bool
deriving DecidableEq, Repr

/-- Initial component state (`useState` initial values, refs null). -/
def initState : ClientState :=
  { status := "Idle", role := none, queueInfo := none, chat := [], draft := "",
    localStream := false, remoteSrcAttached := false, pc := none, graveyard := [] }

/-- `new RTCPeerConnection(ICE_SERVERS)` before any observer is registered. -/
def freshTransport : Transport :=
  { hooksAttached := false, closed := false, localDesc := none,
    remoteDesc := none, candidates := [] }

/-- What `cleanupPeerConnection` does to the transport it drops:
`onicecandidate = null; ontrack = null; onconnectionstatechange = null;
close()`. -/
def closeTransport (t : Transport) : Transport :=
  { t with hooksAttached := false, closed := true }

/-- `cleanupPeerConnection()` (App.tsx 65–77): if `pcRef.current` is set,
null its hooks, close it, drop the reference; then detach the remote video
sink and `setRole(null)`. -/
def cleanupPeerConnection (s : ClientState) : ClientState :=
  let s1 :=
    match s.pc with
    | some t => { s with pc := none, graveyard := closeTransport t :: s.graveyard }
    | none => s
  { s1 with remoteSrcAttached := false, role := none }

/-- `resetConversationUI()` (App.tsx 79–82): `setChat([]); setDraft("")`. -/
def resetConversationUI (s : ClientState) : ClientState :=
  { s with chat := [], draft := "" }

/-- `createPeerConnection()` (App.tsx 84–109).  The source assigns
`pcRef.current = pc` immediately, *before* awaiting `ensureLocalMedia()`
and before registering observers: a previously referenced transport is
dropped un-closed (it goes to the graveyard as-is), and if media acquisition
rejects, the fresh transport sits in `pcRef` with no hooks attached.
Returns the state and whether `ensureLocalMedia` threw. -/
def createPeerConnection (mediaOk : Bool) (s : ClientState) : ClientState × Bool :=
  let g :=
    match s.pc with
    | some t => t :: s.graveyard
    | none => s.graveyard
  if s.localStream || mediaOk then
    ({ s with pc := some { freshTransport with hooksAttached := true },
              graveyard := g, localStream := true }, false)
  else
    ({ s with pc := some freshTransport, graveyard := g }, true)

/-- `start()` (App.tsx 111–118).  Sets status, awaits `ensureLocalMedia()`
with no try/catch (a rejection escapes `start` and leaves the status at
"Requesting camera..."), then on success clears chat/draft/queue and emits
`find`. -/
def startOp (mediaOk : Bool) (s : ClientState) : StepRes :=
  let s1 := { s with status := "Requesting camera..." }
  if s.localStream || mediaOk then
    ⟨{ s1 with localStream := true, status := "Searching match...",
               chat := [], draft := "", queueInfo := none }, [Out.find], false⟩
  else
    ⟨s1, [], true⟩

/-- `next()` (App.tsx 120–128): status, cleanup, clear chat and queue, then
emit `next` and `find` unconditionally. -/
def nextOp (s : ClientState) : StepRes :=
  let s1 := resetConversationUI (cleanupPeerConnection { s with status := "Next..." })
  ⟨{ s1 with queueInfo := none }, [Out.next, Out.find], false⟩

/-- `stop()` (App.tsx 130–136): status, cleanup, clear chat and queue, emit
`stop`. -/
def stopOp (s : ClientState) : StepRes :=
  let s1 := resetConversationUI (cleanupPeerConnection { s with status := "Stopped" })
  ⟨{ s1 with queueInfo := none }, [Out.stop], false⟩

/-- `pc.setLocalDescription(d)` on the current `pcRef`. -/
def setPcLocalDesc (s : ClientState) (d : Sdp) : ClientState :=
  { s with pc := s.pc.map fun t => { t with localDesc := some d } }

/-- `pc.setRemoteDescription(d)` on the current `pcRef`. -/
def setPcRemoteDesc (s : ClientState) (d : Sdp) : ClientState :=
  { s with pc := s.pc.map fun t => { t with remoteDesc := some d } }

/-- The template literal `Matched as ${role}` (role may be null). -/
def roleText : Option RoleKind → String
  | some RoleKind.caller => "caller"
  | some RoleKind.callee => "callee"
  | none => "null"

/-- `socket.on("matched")` (App.tsx 186–199): set role, clear queue info and
conversation, set status, build a peer connection (note: without any prior
cleanup of an existing one), and if caller, create an offer, commit it
locally and emit `rtc-offer` once. -/
def onMatched (mediaOk : Bool) (r : Option RoleKind) (s : ClientState) : StepRes :=
  let s1 := { s with role := r, queueInfo := none, chat := [], draft := "",
                     status := "Matched as " ++ roleText r }
  let p := createPeerConnection mediaOk s1
  if p.2 then ⟨p.1, [], true⟩
  else if r = some RoleKind.caller then
    ⟨setPcLocalDesc p.1 Sdp.offer, [Out.rtcOffer Sdp.offer], false⟩
  else
    ⟨p.1, [], false⟩

/-- `socket.on("partner-left")` (App.tsx 201–206): status, cleanup, clear
conversation, emit `find`. -/
def onPartnerLeft (s : ClientState) : StepRes :=
  ⟨resetConversationUI (cleanupPeerConnection
      { s with status := "Partner left. Waiting..." }), [Out.find], false⟩

/-- `socket.on("reset")` (App.tsx 208–212): status, cleanup, clear
conversation; emits nothing and does not touch `queueInfo`. -/
def onReset (s : ClientState) : StepRes :=
  ⟨resetConversationUI (cleanupPeerConnection { s with status := "Reset" }), [], false⟩

/-- `socket.on("chat-message")` (App.tsx 215–220): append the message with
`mine: false`, with no guard on any session being live. -/
def onChatMessage (id text : String) (ts : Nat) (s : ClientState) : StepRes :=
  ⟨{ s with chat := s.chat ++ [{ id := id, text := text, ts := ts, mine := false }] },
   [], false⟩

/-- `socket.on("rtc-offer")` (App.tsx 223–232):
`const pc = pcRef.current ?? (await createPeerConnection())`, then commit the
remote description, create and commit an answer, emit `rtc-answer` — with no
check of the local role. -/
def onRtcOffer (mediaOk : Bool) (sdp : Sdp) (s : ClientState) : StepRes :=
  let p :=
    match s.pc with
    | some _ => (s, false)
    | none => createPeerConnection mediaOk s
  if p.2 then ⟨p.1, [], true⟩
  else
    ⟨setPcLocalDesc (setPcRemoteDesc p.1 sdp) Sdp.answer,
     [Out.rtcAnswer Sdp.answer], false⟩

/-- `socket.on("rtc-answer")` (App.tsx 234–241): if `pcRef.current` is null,
return; else commit the remote description. -/
def onRtcAnswer (sdp : Sdp) (s : ClientState) : StepRes :=
  match s.pc with
  | none => ⟨s, [], false⟩
  | some _ => ⟨setPcRemoteDesc s sdp, [], false⟩

/-- `socket.on("rtc-ice")` (App.tsx 243–254): if `pcRef.current` is null,
return; else `try { addIceCandidate } catch {}` — the add fails (and the
failure is swallowed, changing nothing) when the remote description has not
been committed yet. -/
def onRtcIce (cand : Nat) (s : ClientState) : StepRes :=
  match s.pc with
  | none => ⟨s, [], false⟩
  | some t =>
    match t.remoteDesc with
    | none => ⟨s, [], false⟩
    | some _ =>
      ⟨{ s with pc := some { t with candidates := t.candidates ++ [cand] } }, [], false⟩

/-- `sendChat()` (App.tsx 154–163): trim the draft, bail on empty, emit
`chat-message` and append locally with `mine: true`, clear the draft.
The fresh `crypto.randomUUID()` and `Date.now()` are inputs. -/
def sendChatOp (id : String) (ts : Nat) (s : ClientState) : StepRes :=
  let text := s.draft.trim
  if text = "" then ⟨s, [], false⟩
  else
    ⟨{ s with chat := s.chat ++ [{ id := id, text := text, ts := ts, mine := true }],
              draft := "" },
     [Out.chatMessage id text ts], false⟩

/-- One handler invocation, run to completion (the event loop is
single-threaded; each async handler is modelled as atomic). -/
def stepF (mediaOk : Bool) (s : ClientState) : Ev → StepRes
  | Ev.start => startOp mediaOk s
  | Ev.next => nextOp s
  | Ev.stop => stopOp s
  | Ev.connect => ⟨{ s with status := "Connected to signaling" }, [], false⟩
  | Ev.welcome => ⟨{ s with status := "Connected" }, [], false⟩
  | Ev.reconnected => ⟨{ s with status := "Reconnected" }, [], false⟩
  | Ev.waiting => ⟨{ s with status := "Waiting for partner..." }, [], false⟩
  | Ev.queueTimeout => ⟨{ s with status := "Still waiting... (no partner yet)" }, [], false⟩
  | Ev.queueStatus info => ⟨{ s with queueInfo := some info }, [], false⟩
  | Ev.matched r => onMatched mediaOk r s
  | Ev.partnerLeft => onPartnerLeft s
  | Ev.reset => onReset s
  | Ev.chatMessageIn id text ts => onChatMessage id text ts s
  | Ev.rtcOffer sdp => onRtcOffer mediaOk sdp s
  | Ev.rtcAnswer sdp => onRtcAnswer sdp s
  | Ev.rtcIce c => onRtcIce c s
  | Ev.sendChat id ts => sendChatOp id ts s
  | Ev.setDraft d => ⟨{ s with draft := d }, [], false⟩

/-- Run a sequence of events from the initial state (states reached this way
are exactly the reachable states; a thrown handler leaves the state it had
mutated so far, as an uncaught promise rejection does). -/
def run (mediaOk : Bool) (evs : List Ev) : ClientState :=
  evs.foldl (fun s e => (stepF mediaOk s e).state) initState

/-- Every transport ever created that is still around: the one in `pcRef`
plus the graveyard. -/
def allTransports (s : ClientState) : List Transport :=
  s.pc.toList ++ s.graveyard

/-- Number of live (un-closed) transports. -/
def liveTransports (s : ClientState) : Nat :=
  (allTransports s).countP fun t => !t.closed

/-- A session is live when `pcRef.current` is non-null. -/
def sessionLive (s : ClientState) : Bool :=
  s.pc.isSome

/-- Every dropped transport was closed with its hooks released first
(the teardown protocol was honoured on every path that dropped one). -/
def goodGraveyard (s : ClientState) : Prop :=
  ∀ t ∈ s.graveyard, t.closed = true ∧ t.hooksAttached = false

instance (s : ClientState) : Decidable (goodGraveyard s) := by
  unfold goodGraveyard; infer_instance


/-! ## Helper lemmas about the graveyard and teardown -/

theorem goodGraveyard_graveyard_eq {s s' : ClientState}
    (he : s'.graveyard = s.graveyard) (h : goodGraveyard s) : goodGraveyard s' :=
  fun t ht => h t (he ▸ ht)

theorem liveTransports_le_one (s : ClientState) (h : goodGraveyard s) :
    liveTransports s ≤ 1 := by
  unfold liveTransports allTransports
  rw [List.countP_append]
  have h1 : List.countP (fun t => !t.closed) s.graveyard = 0 := by
    rw [List.countP_eq_zero]
    intro t ht
    simp [(h t ht).1]
  have h2 : List.countP (fun t => !t.closed) s.pc.toList ≤ 1 := by
    cases s.pc with
    | none => simp
    | some t =>
      calc List.countP (fun t => !t.closed) [t] ≤ [t].length := List.countP_le_length _
        _ = 1 := rfl
  omega

theorem cleanup_graveyard_none (s : ClientState) (hp : s.pc = none) :
    (cleanupPeerConnection s).graveyard = s.graveyard := by
  simp [cleanupPeerConnection, hp]

theorem cleanup_graveyard_some (s : ClientState) (t : Transport) (hp : s.pc = some t) :
    (cleanupPeerConnection s).graveyard = closeTransport t :: s.graveyard := by
  simp [cleanupPeerConnection, hp]

theorem goodGraveyard_cleanup (s : ClientState) (h : goodGraveyard s) :
    goodGraveyard (cleanupPeerConnection s) := by
  cases hp : s.pc with
  | none => exact goodGraveyard_graveyard_eq (cleanup_graveyard_none s hp) h
  | some t0 =>
    intro t ht
    rw [cleanup_graveyard_some s t0 hp] at ht
    rcases List.mem_cons.mp ht with rfl | ht'
    · exact ⟨rfl, rfl⟩
    · exact h t ht'

theorem startOp_graveyard (mediaOk : Bool) (s : ClientState) :
    (startOp mediaOk s).state.graveyard = s.graveyard := by
  unfold startOp
  split <;> rfl

theorem onMatched_graveyard (mediaOk : Bool) (r : Option RoleKind) (s : ClientState)
    (hp : s.pc = none) :
    (onMatched mediaOk r s).state.graveyard = s.graveyard := by
  unfold onMatched createPeerConnection
  simp only [hp]
  split <;> split <;> first
    | rfl
    | (split <;> rfl)

theorem onRtcOffer_graveyard (mediaOk : Bool) (sdp : Sdp) (s : ClientState) :
    (onRtcOffer mediaOk sdp s).state.graveyard = s.graveyard := by
  unfold onRtcOffer createPeerConnection
  cases hp : s.pc with
  | none => simp only [hp]; split <;> split <;> simp [setPcLocalDesc, setPcRemoteDesc]
  | some t => simp [hp, setPcLocalDesc, setPcRemoteDesc]

theorem onRtcAnswer_graveyard (sdp : Sdp) (s : ClientState) :
    (onRtcAnswer sdp s).state.graveyard = s.graveyard := by
  unfold onRtcAnswer
  cases hp : s.pc <;> simp [hp, setPcRemoteDesc]

theorem onRtcIce_graveyard (cand : Nat) (s : ClientState) :
    (onRtcIce cand s).state.graveyard = s.graveyard := by
  unfold onRtcIce
  cases hp : s.pc with
  | none => simp [hp]
  | some t => cases hr : t.remoteDesc <;> simp [hp, hr]

theorem sendChatOp_graveyard (id : String) (ts : Nat) (s : ClientState) :
    (sendChatOp id ts s).state.graveyard = s.graveyard := by
  unfold sendChatOp
  dsimp only
  split <;> rfl

/-! ## C1: at most one live Session / no leaked transports -/

theorem goodGraveyard_cleanup_status (s : ClientState) (st : String)
    (h : goodGraveyard s) :
    goodGraveyard (cleanupPeerConnection { s with status := st }) :=
  goodGraveyard_cleanup _ (goodGraveyard_graveyard_eq (s := s) rfl h)

/-- The trace refuting C1: a second `matched` while a session is live. -/
def c1Trace : List Ev :=
  [Ev.start, Ev.matched (some RoleKind.caller), Ev.matched (some RoleKind.caller)]

/-- C1 counterexample: after `start` and two consecutive inbound `matched`
events (the second arriving while a session is live), two un-closed
transports exist at once, and the dropped one was never closed and still has
its event hooks attached — `socket.on("matched")` constructs a new
`RTCPeerConnection` without first running `cleanupPeerConnection`, so the
previous transport is leaked, refuting the claim. -/
theorem C1_counterexample :
    liveTransports (run true c1Trace) = 2 ∧
    (run true c1Trace).graveyard =
      [{ hooksAttached := true, closed := false, localDesc := some Sdp.offer,
         remoteDesc := none, candidates := [] }] :=
  ⟨rfl, rfl⟩

/-- C1 (amended): the teardown protocol is honoured on every path except a
`matched` event arriving while a transport is live.  Provided every `matched`
event arrives with `pcRef.current` null, each step preserves the invariant
that every dropped transport was closed with its hooks released first, and
hence at most one live transport (Session) exists at any instant. -/
theorem C1_at_most_one_live_session (mediaOk : Bool) (s : ClientState) (e : Ev)
    (hg : goodGraveyard s)
    (hm : ∀ r, e = Ev.matched r → s.pc = none) :
    goodGraveyard (stepF mediaOk s e).state ∧
    liveTransports (stepF mediaOk s e).state ≤ 1 := by
  have key : goodGraveyard (stepF mediaOk s e).state := by
    cases e with
    | start => exact goodGraveyard_graveyard_eq (startOp_graveyard mediaOk s) hg
    | next =>
      exact goodGraveyard_graveyard_eq
        (s := cleanupPeerConnection { s with status := "Next..." }) rfl
        (goodGraveyard_cleanup_status s _ hg)
    | stop =>
      exact goodGraveyard_graveyard_eq
        (s := cleanupPeerConnection { s with status := "Stopped" }) rfl
        (goodGraveyard_cleanup_status s _ hg)
    | connect => exact goodGraveyard_graveyard_eq (s := s) rfl hg
    | welcome => exact goodGraveyard_graveyard_eq (s := s) rfl hg
    | reconnected => exact goodGraveyard_graveyard_eq (s := s) rfl hg
    | waiting => exact goodGraveyard_graveyard_eq (s := s) rfl hg
    | queueTimeout => exact goodGraveyard_graveyard_eq (s := s) rfl hg
    | queueStatus info => exact goodGraveyard_graveyard_eq (s := s) rfl hg
    | matched r =>
      exact goodGraveyard_graveyard_eq (onMatched_graveyard mediaOk r s (hm r rfl)) hg
    | partnerLeft =>
      exact goodGraveyard_graveyard_eq
        (s := cleanupPeerConnection { s with status := "Partner left. Waiting..." }) rfl
        (goodGraveyard_cleanup_status s _ hg)
    | reset =>
      exact goodGraveyard_graveyard_eq
        (s := cleanupPeerConnection { s with status := "Reset" }) rfl
        (goodGraveyard_cleanup_status s _ hg)
    | chatMessageIn id text ts => exact goodGraveyard_graveyard_eq (s := s) rfl hg
    | rtcOffer sdp =>
      exact goodGraveyard_graveyard_eq (onRtcOffer_graveyard mediaOk sdp s) hg
    | rtcAnswer sdp =>
      exact goodGraveyard_graveyard_eq (onRtcAnswer_graveyard sdp s) hg
    | rtcIce c => exact goodGraveyard_graveyard_eq (onRtcIce_graveyard c s) hg
    | sendChat id ts =>
      exact goodGraveyard_graveyard_eq (sendChatOp_graveyard id ts s) hg
    | setDraft d => exact goodGraveyard_graveyard_eq (s := s) rfl hg
  exact ⟨key, liveTransports_le_one _ key⟩

/-- C1 witness: the amended theorem applied at a concrete state and event. -/
theorem C1_at_most_one_live_session_witness :
    goodGraveyard (stepF true initState Ev.stop).state ∧
    liveTransports (stepF true initState Ev.stop).state ≤ 1 :=
  C1_at_most_one_live_session true initState Ev.stop (by decide)
    (fun r h => nomatch h)

/-! ## C2: start() under media-acquisition failure and success -/

/-- C2 counterexample: calling `start()` from the initial state when
`getUserMedia` rejects.  The rejection escapes `start` uncaught
(`threw = true`), the visible status is left at the in-progress message
"Requesting camera..." rather than any error report, and no find-request is
emitted — refuting "reports a MediaAcquisitionError as a visible status" and
"no error propagates past the component boundary". -/
theorem C2_counterexample :
    (stepF false initState Ev.start).threw = true ∧
    (stepF false initState Ev.start).state.status = "Requesting camera..." ∧
    (stepF false initState Ev.start).outs = [] :=
  ⟨rfl, rfl, rfl⟩

/-- C2 (amended): if media acquisition fails during `start()`, no
find-request is sent, no Session is constructed, and the component state is
unchanged except for the status, which is left at "Requesting camera..."
(no error status is reported; the rejection propagates out of `start`, and a
later `start()` with media obtainable succeeds).  If acquisition succeeds,
`start()` caches the stream, clears prior chat/draft and queue state, sets
the searching status and emits exactly one find-request. -/
theorem C2_start_behavior (mediaOk : Bool) (s : ClientState) :
    ((s.localStream || mediaOk) = false →
      stepF mediaOk s Ev.start =
        ⟨{ s with status := "Requesting camera..." }, [], true⟩) ∧
    ((s.localStream || mediaOk) = true →
      stepF mediaOk s Ev.start =
        ⟨{ s with status := "Searching match...", localStream := true,
                  chat := [], draft := "", queueInfo := none },
         [Out.find], false⟩) := by
  constructor
  · intro h
    simp only [stepF, startOp, h]
    rfl
  · intro h
    simp only [stepF, startOp, h]
    rfl

/-- C2 witness: the amended theorem applied on both sides — a failing
`start` from the initial state, and a succeeding retry from the state the
failure left behind. -/
theorem C2_start_behavior_witness :
    stepF false initState Ev.start =
      ⟨{ initState with status := "Requesting camera..." }, [], true⟩ ∧
    stepF true { initState with status := "Requesting camera..." } Ev.start =
      ⟨{ initState with status := "Searching match...", localStream := true,
                        chat := [], draft := "", queueInfo := none },
       [Out.find], false⟩ :=
  ⟨(C2_start_behavior false initState).1 rfl,
   (C2_start_behavior true { initState with status := "Requesting camera..." }).2 rfl⟩

/-! ## C3: next() with no active session -/

/-- C3 counterexample: `next()` called in the initial (Idle) state emits
`socket.emit("next")` in addition to `socket.emit("find")` — refuting the
claim that it "emits the find event but sends no other outbound event (in
particular no next notification)". -/
theorem C3_counterexample :
    (stepF true initState Ev.next).outs = [Out.next, Out.find] ∧
    Out.next ∈ (stepF true initState Ev.next).outs :=
  ⟨rfl, List.mem_cons_self _ _⟩

/-- C3 (amended): when no session is live (`pcRef.current` null), `next()`
raises no error and leaves no session, but emits *both* a "next"
notification and a find-request (and clears chat/draft/queue and sets the
status), rather than only the find-request. -/
theorem C3_next_no_session (mediaOk : Bool) (s : ClientState)
    (h : s.pc = none) :
    stepF mediaOk s Ev.next =
      ⟨{ s with status := "Next...", role := none, remoteSrcAttached := false,
                chat := [], draft := "", queueInfo := none },
       [Out.next, Out.find], false⟩ := by
  simp only [stepF, nextOp, cleanupPeerConnection, resetConversationUI, h]

/-- C3 witness: the amended theorem at the initial state. -/
theorem C3_next_no_session_witness :
    stepF true initState Ev.next =
      ⟨{ initState with status := "Next...", role := none,
                        remoteSrcAttached := false, chat := [], draft := "",
                        queueInfo := none },
       [Out.next, Out.find], false⟩ :=
  C3_next_no_session true initState rfl

/-! ## C4: QueueStatus only while Searching -/

/-- The trace refuting C4: a `queue-status` update arriving after `matched`. -/
def c4Trace : List Ev :=
  [Ev.start, Ev.matched (some RoleKind.caller), Ev.queueStatus ⟨1, 2, 3⟩]

/-- C4 counterexample: after `start` and `matched(caller)` a session is live
(the machine is Matched, not Searching), yet an inbound `queue-status` event
is stored unconditionally by `socket.on("queue-status")`, so the stored
QueueStatus is non-null while the state is not Searching — refuting the
claim. -/
theorem C4_counterexample :
    sessionLive (run true c4Trace) = true ∧
    (run true c4Trace).role = some RoleKind.caller ∧
    (run true c4Trace).queueInfo = some ⟨1, 2, 3⟩ :=
  ⟨rfl, rfl, rfl⟩

/-- C4 (amended): the queue info is cleared synchronously by `next`, `stop`
and `matched`, and by a successful `start`; but a `queue-status` event is
stored regardless of the current state (even while a session is live), and
`reset` (the transition to Idle) does not clear it. -/
theorem C4_queue_clearing (mediaOk : Bool) (s : ClientState)
    (r : Option RoleKind) (i : QueueInfo) :
    (stepF true s Ev.start).state.queueInfo = none ∧
    (stepF mediaOk s Ev.next).state.queueInfo = none ∧
    (stepF mediaOk s Ev.stop).state.queueInfo = none ∧
    (stepF mediaOk s (Ev.matched r)).state.queueInfo = none ∧
    (stepF mediaOk s (Ev.queueStatus i)).state.queueInfo = some i ∧
    (stepF mediaOk s Ev.reset).state.queueInfo = s.queueInfo := by
  refine ⟨?_, rfl, rfl, ?_, rfl, ?_⟩
  · simp only [stepF, startOp, Bool.or_true]
    rfl
  · simp only [stepF, onMatched, createPeerConnection]
    split <;> split <;> first
      | rfl
      | (split <;> rfl)
  · simp only [stepF, onReset, cleanupPeerConnection, resetConversationUI]
    cases hp : s.pc <;> simp [hp]

/-! ## C5: inbound offer handling by role -/

/-- The state refuting C5: a caller that has already produced and committed
its own offer. -/
def c5State : ClientState :=
  run true [Ev.start, Ev.matched (some RoleKind.caller)]

/-- C5 counterexample: `c5State` is a caller whose local offer is committed,
yet on an inbound `rtc-offer` the handler — which never checks the role —
commits the remote description over it and emits an answer, instead of
rejecting/ignoring the offer per the role contract as the claim requires. -/
theorem C5_counterexample :
    c5State.role = some RoleKind.caller ∧
    c5State.pc =
      some { hooksAttached := true, closed := false, localDesc := some Sdp.offer,
             remoteDesc := none, candidates := [] } ∧
    (stepF true c5State (Ev.rtcOffer (Sdp.other 0))).outs =
      [Out.rtcAnswer Sdp.answer] ∧
    (stepF true c5State (Ev.rtcOffer (Sdp.other 0))).state.pc =
      some { hooksAttached := true, closed := false, localDesc := some Sdp.answer,
             remoteDesc := some (Sdp.other 0), candidates := [] } :=
  ⟨rfl, rfl, rfl, rfl⟩

/-- C5 (amended): on an inbound offer the client — regardless of its role —
uses the existing peer connection, or constructs one first if none exists
(construction deferred until the offer arrives, succeeding whenever the
local stream is cached or media is obtainable); it commits the remote
description, commits a local answer, and emits exactly one outbound answer
event.  A caller that already sent its own offer takes the same path rather
than rejecting/ignoring. -/
theorem C5_offer_handling (mediaOk : Bool) (s : ClientState) (sdp : Sdp)
    (h : s.pc.isSome = true ∨ s.localStream = true ∨ mediaOk = true) :
    (stepF mediaOk s (Ev.rtcOffer sdp)).outs = [Out.rtcAnswer Sdp.answer] ∧
    (stepF mediaOk s (Ev.rtcOffer sdp)).threw = false ∧
    ∃ t, (stepF mediaOk s (Ev.rtcOffer sdp)).state.pc = some t ∧
         t.remoteDesc = some sdp ∧ t.localDesc = some Sdp.answer := by
  simp only [stepF, onRtcOffer, createPeerConnection]
  cases hp : s.pc with
  | some t =>
    simp only [setPcLocalDesc, setPcRemoteDesc, hp]
    exact ⟨rfl, rfl, _, rfl, rfl, rfl⟩
  | none =>
    have hm : (s.localStream || mediaOk) = true := by
      rcases h with h | h | h
      · rw [hp] at h; simp at h
      · simp [h]
      · simp [h]
    simp only [hp, hm, if_true, setPcLocalDesc, setPcRemoteDesc]
    exact ⟨rfl, rfl, _, rfl, rfl, rfl⟩

/-- C5 witness: the amended theorem applied to a callee with no peer
connection yet (construction deferred to the offer's arrival). -/
theorem C5_offer_handling_witness :
    (stepF true initState (Ev.rtcOffer Sdp.offer)).outs =
      [Out.rtcAnswer Sdp.answer] ∧
    (stepF true initState (Ev.rtcOffer Sdp.offer)).threw = false ∧
    ∃ t, (stepF true initState (Ev.rtcOffer Sdp.offer)).state.pc = some t ∧
         t.remoteDesc = some Sdp.offer ∧ t.localDesc = some Sdp.answer :=
  C5_offer_handling true initState Sdp.offer (Or.inr (Or.inr rfl))

/-! ## C6: chat scoped to the live session -/

/-- C6 counterexample: in the initial state no session is live
(`pcRef.current` null), yet an inbound `chat-message` event is appended by
`socket.on("chat-message")`, which has no liveness guard — the chat becomes
non-empty with no Session in existence, refuting the claim. -/
theorem C6_counterexample :
    initState.pc = none ∧
    (stepF true initState (Ev.chatMessageIn "m1" "hi" 5)).state.pc = none ∧
    (stepF true initState (Ev.chatMessageIn "m1" "hi" 5)).state.chat =
      [{ id := "m1", text := "hi", ts := 5, mine := false }] :=
  ⟨rfl, rfl, rfl⟩

/-- C6 (amended): the chat sequence is empty immediately after every session
boundary transition (successful `start`, `next`, `stop`, `matched`,
`partner-left`, `reset`); but an inbound `chat-message` event appends to the
chat unconditionally, with no guard on a session being live. -/
theorem C6_chat_boundaries (mediaOk : Bool) (s : ClientState)
    (r : Option RoleKind) (id text : String) (ts : Nat) :
    (stepF true s Ev.start).state.chat = [] ∧
    (stepF mediaOk s Ev.next).state.chat = [] ∧
    (stepF mediaOk s Ev.stop).state.chat = [] ∧
    (stepF mediaOk s (Ev.matched r)).state.chat = [] ∧
    (stepF mediaOk s Ev.partnerLeft).state.chat = [] ∧
    (stepF mediaOk s Ev.reset).state.chat = [] ∧
    (stepF mediaOk s (Ev.chatMessageIn id text ts)).state.chat =
      s.chat ++ [{ id := id, text := text, ts := ts, mine := false }] := by
  refine ⟨?_, rfl, rfl, ?_, rfl, rfl, rfl⟩
  · simp only [stepF, startOp, Bool.or_true]
    rfl
  · simp only [stepF, onMatched, createPeerConnection]
    split <;> split <;> first
      | rfl
      | (split <;> rfl)

/-! ## C7: matched(role) drives the offer side for the caller only -/

/-- C7: on `matched(caller)` (with the local stream cached or media
obtainable), the client stores the role, constructs a fresh peer connection
with its observers registered, commits a locally created offer, and emits
exactly one outbound `rtc-offer`; on `matched(callee)` it constructs the
fresh connection, commits nothing, and emits nothing, awaiting the inbound
offer. -/
theorem C7_matched_roles (mediaOk : Bool) (s : ClientState)
    (h : s.localStream = true ∨ mediaOk = true) :
    ((stepF mediaOk s (Ev.matched (some RoleKind.caller))).state.role =
        some RoleKind.caller ∧
     (stepF mediaOk s (Ev.matched (some RoleKind.caller))).outs =
        [Out.rtcOffer Sdp.offer] ∧
     (stepF mediaOk s (Ev.matched (some RoleKind.caller))).threw = false ∧
     (stepF mediaOk s (Ev.matched (some RoleKind.caller))).state.pc =
        some { hooksAttached := true, closed := false, localDesc := some Sdp.offer,
               remoteDesc := none, candidates := [] }) ∧
    ((stepF mediaOk s (Ev.matched (some RoleKind.callee))).state.role =
        some RoleKind.callee ∧
     (stepF mediaOk s (Ev.matched (some RoleKind.callee))).outs = [] ∧
     (stepF mediaOk s (Ev.matched (some RoleKind.callee))).threw = false ∧
     (stepF mediaOk s (Ev.matched (some RoleKind.callee))).state.pc =
        some { hooksAttached := true, closed := false, localDesc := none,
               remoteDesc := none, candidates := [] }) := by
  have hm : (s.localStream || mediaOk) = true := by
    rcases h with h | h <;> simp [h]
  constructor <;>
    simp [stepF, onMatched, createPeerConnection, setPcLocalDesc, hm,
          freshTransport, roleText]

/-- C7 witness: the theorem at the initial state with media obtainable. -/
theorem C7_matched_roles_witness :
    ((stepF true initState (Ev.matched (some RoleKind.caller))).state.role =
        some RoleKind.caller ∧
     (stepF true initState (Ev.matched (some RoleKind.caller))).outs =
        [Out.rtcOffer Sdp.offer] ∧
     (stepF true initState (Ev.matched (some RoleKind.caller))).threw = false ∧
     (stepF true initState (Ev.matched (some RoleKind.caller))).state.pc =
        some { hooksAttached := true, closed := false, localDesc := some Sdp.offer,
               remoteDesc := none, candidates := [] }) ∧
    ((stepF true initState (Ev.matched (some RoleKind.callee))).state.role =
        some RoleKind.callee ∧
     (stepF true initState (Ev.matched (some RoleKind.callee))).outs = [] ∧
     (stepF true initState (Ev.matched (some RoleKind.callee))).threw = false ∧
     (stepF true initState (Ev.matched (some RoleKind.callee))).state.pc =
        some { hooksAttached := true, closed := false, localDesc := none,
               remoteDesc := none, candidates := [] }) :=
  C7_matched_roles true initState (Or.inr rfl)

/-! ## C8: partner-left vs reset remain distinguishable -/

/-- A state with a live session, used to witness the teardown clauses. -/
def c8State : ClientState :=
  run true [Ev.start, Ev.matched (some RoleKind.callee)]

/-- C8: from any state with a live transport, inbound `partner-left` closes
that transport (hooks released first), clears role and chat, sets the
waiting status and automatically emits exactly one fresh find-request; while
inbound `reset` closes the transport, clears role and chat, sets the reset
status and emits nothing — the two server-driven policies stay
distinguishable. -/
theorem C8_departure_events (mediaOk : Bool) (s : ClientState) (t : Transport)
    (hp : s.pc = some t) :
    (stepF mediaOk s Ev.partnerLeft).state.pc = none ∧
    (stepF mediaOk s Ev.partnerLeft).state.role = none ∧
    (stepF mediaOk s Ev.partnerLeft).state.chat = [] ∧
    (stepF mediaOk s Ev.partnerLeft).state.status = "Partner left. Waiting..." ∧
    (stepF mediaOk s Ev.partnerLeft).state.graveyard =
      closeTransport t :: s.graveyard ∧
    (stepF mediaOk s Ev.partnerLeft).outs = [Out.find] ∧
    (stepF mediaOk s Ev.partnerLeft).threw = false ∧
    (stepF mediaOk s Ev.reset).state.pc = none ∧
    (stepF mediaOk s Ev.reset).state.role = none ∧
    (stepF mediaOk s Ev.reset).state.chat = [] ∧
    (stepF mediaOk s Ev.reset).state.status = "Reset" ∧
    (stepF mediaOk s Ev.reset).state.graveyard =
      closeTransport t :: s.graveyard ∧
    (stepF mediaOk s Ev.reset).outs = [] ∧
    (stepF mediaOk s Ev.reset).threw = false := by
  simp [stepF, onPartnerLeft, onReset, cleanupPeerConnection,
        resetConversationUI, hp]

/-- C8 witness: the theorem applied to a concrete in-session state. -/
theorem C8_departure_events_witness :
    (stepF true c8State Ev.partnerLeft).state.pc = none ∧
    (stepF true c8State Ev.partnerLeft).state.role = none ∧
    (stepF true c8State Ev.partnerLeft).state.chat = [] ∧
    (stepF true c8State Ev.partnerLeft).state.status = "Partner left. Waiting..." ∧
    (stepF true c8State Ev.partnerLeft).state.graveyard =
      closeTransport { hooksAttached := true, closed := false, localDesc := none,
                       remoteDesc := none, candidates := [] } :: c8State.graveyard ∧
    (stepF true c8State Ev.partnerLeft).outs = [Out.find] ∧
    (stepF true c8State Ev.partnerLeft).threw = false ∧
    (stepF true c8State Ev.reset).state.pc = none ∧
    (stepF true c8State Ev.reset).state.role = none ∧
    (stepF true c8State Ev.reset).state.chat = [] ∧
    (stepF true c8State Ev.reset).state.status = "Reset" ∧
    (stepF true c8State Ev.reset).state.graveyard =
      closeTransport { hooksAttached := true, closed := false, localDesc := none,
                       remoteDesc := none, candidates := [] } :: c8State.graveyard ∧
    (stepF true c8State Ev.reset).outs = [] ∧
    (stepF true c8State Ev.reset).threw = false :=
  C8_departure_events true c8State
    { hooksAttached := true, closed := false, localDesc := none,
      remoteDesc := none, candidates := [] } rfl

/-! ## C9: late negotiation events after teardown are no-ops -/

/-- A state reached by tearing a session down (`partner-left` after a match):
`pcRef.current` is null again. -/
def c9State : ClientState :=
  run true [Ev.start, Ev.matched (some RoleKind.caller), Ev.partnerLeft]

/-- C9: with no peer connection (after teardown), an inbound `rtc-answer` or
`rtc-ice` event returns the state completely unchanged, emits nothing and
throws nothing — both handlers bail out on the null check. -/
theorem C9_late_negotiation_noop (mediaOk : Bool) (s : ClientState)
    (sdp : Sdp) (cand : Nat) (h : s.pc = none) :
    stepF mediaOk s (Ev.rtcAnswer sdp) = ⟨s, [], false⟩ ∧
    stepF mediaOk s (Ev.rtcIce cand) = ⟨s, [], false⟩ := by
  constructor <;> simp [stepF, onRtcAnswer, onRtcIce, h]

/-- C9 witness: the theorem applied right after a teardown. -/
theorem C9_late_negotiation_noop_witness :
    stepF true c9State (Ev.rtcAnswer Sdp.answer) = ⟨c9State, [], false⟩ ∧
    stepF true c9State (Ev.rtcIce 7) = ⟨c9State, [], false⟩ :=
  C9_late_negotiation_noop true c9State Sdp.answer 7 rfl

/-! ## C10: out-of-order candidates are silently discarded -/

/-- A live session whose remote description is not yet committed (a callee
that has not received the offer). -/
def c10State : ClientState :=
  run true [Ev.start, Ev.matched (some RoleKind.callee)]

/-- C10: with a live peer connection whose remote description is not yet
committed, applying an inbound candidate fails and the failure is swallowed
by the `try/catch`: the state is returned completely unchanged (the session
is not aborted), nothing is emitted, and no error escapes. -/
theorem C10_early_candidate_swallowed (mediaOk : Bool) (s : ClientState)
    (t : Transport) (cand : Nat) (hp : s.pc = some t)
    (hr : t.remoteDesc = none) :
    stepF mediaOk s (Ev.rtcIce cand) = ⟨s, [], false⟩ := by
  simp [stepF, onRtcIce, hp, hr]

/-- C10 witness: the theorem applied to a concrete pre-offer callee state. -/
theorem C10_early_candidate_swallowed_witness :
    stepF true c10State (Ev.rtcIce 7) = ⟨c10State, [], false⟩ :=
  C10_early_candidate_swallowed true c10State
    { hooksAttached := true, closed := false, localDesc := none,
      remoteDesc := none, candidates := [] } 7 rfl rfl

end VideoChatClient
